import Mathlib

/-!
# Shallow embedding of the taxi-trip dashboard pipeline

This file embeds the data-cleaning, filtering and aggregation pipeline of
`src/assignment1_dashboard/app.py` and proves/refutes the specification
claims about it.

Modelling conventions:
* Timestamps are rational numbers of seconds since the Unix epoch
  (1970-01-01 00:00, a Thursday).  pandas `datetime64` values are integer
  nanosecond counts; rationals subsume them and keep every comparison and
  difference exact.
* Nullable columns (any pandas column may hold `NaN`/`NaT`) are `Option`
  fields.  A comparison such as `df["trip_distance"] > 0` is `False` on a
  missing value, which the option-aware comparison helpers reproduce.
* A dataframe is a `List` of rows.  Derived columns assigned by
  `clean_data` are plain fields of the row structure that the raw loader
  leaves at a default and `clean_data` overwrites.
-/

namespace Dashboard

/-- One trip record (one dataframe row).  Raw fields mirror the parquet
columns used by the app; derived fields are the columns `clean_data`
assigns (`trip_duration_minutes`, `pickup_hour`, `pickup_day_of_week`,
`trip_speed_mph`), defaulted before cleaning. -/
structure TripRow where
  tpep_pickup_datetime : Option ℚ
  tpep_dropoff_datetime : Option ℚ
  PULocationID : Option ℤ
  DOLocationID : Option ℤ
  trip_distance : Option ℚ
  fare_amount : Option ℚ
  payment_type : Option ℤ
  trip_duration_minutes : ℚ := 0
  pickup_hour : ℤ := 0
  pickup_day_of_week : String := ""
  trip_speed_mph : ℚ := 0
  deriving DecidableEq, Repr

/-- The pandas comparison `some x > c`; `NaN > c` is `False`. -/
def optGt (a : Option ℚ) (c : ℚ) : Bool :=
  match a with
  | some x => decide (c < x)
  | none => false

/-- The pandas comparison `some x <= c`; `NaN <= c` is `False`. -/
def optLe (a : Option ℚ) (c : ℚ) : Bool :=
  match a with
  | some x => decide (x ≤ c)
  | none => false

/-- The pandas comparison `a >= b` between two nullable columns. -/
def optGe2 (a b : Option ℚ) : Bool :=
  match a, b with
  | some x, some y => decide (y ≤ x)
  | _, _ => false

/-- Row predicate of `df.dropna(subset=critical_columns)`: the five critical
columns (`tpep_pickup_datetime`, `tpep_dropoff_datetime`, `PULocationID`,
`DOLocationID`, `fare_amount`) are all present. -/
def hasCriticalFields (r : TripRow) : Bool :=
  r.tpep_pickup_datetime.isSome && r.tpep_dropoff_datetime.isSome &&
    r.PULocationID.isSome && r.DOLocationID.isSome && r.fare_amount.isSome

/-- The boolean mask filtering invalid trips in `clean_data`:
`(trip_distance > 0) & (fare_amount > 0) & (fare_amount <= 500) &
(tpep_dropoff_datetime >= tpep_pickup_datetime)`. -/
def validTrip (r : TripRow) : Bool :=
  optGt r.trip_distance 0 && optGt r.fare_amount 0 &&
    optLe r.fare_amount 500 &&
    optGe2 r.tpep_dropoff_datetime r.tpep_pickup_datetime

/-- Calendar-day index of a timestamp (days since the epoch), i.e. the
`.date()` / `.dt.date` projection. -/
def dateOf (ts : ℚ) : ℤ := ⌊ts / 86400⌋

/-- Seconds elapsed since midnight of the timestamp's own day. -/
def secondOfDay (ts : ℚ) : ℚ := ts - 86400 * (dateOf ts : ℚ)

/-- The `.dt.hour` accessor: hour-of-day component, 0–23. -/
def hourOf (ts : ℚ) : ℤ := ⌊secondOfDay ts / 3600⌋

/-- Weekday names in Unix-epoch order: day 0 (1970-01-01) is a Thursday. -/
def dayNames : List String :=
  ["Thursday", "Friday", "Saturday", "Sunday", "Monday", "Tuesday", "Wednesday"]

/-- The `.dt.day_name()` accessor: the weekday name of a timestamp. -/
def dayNameOf (ts : ℚ) : String :=
  dayNames.getD (((dateOf ts).emod 7).toNat) ("")

/-- The derived-column assignments of `clean_data` on one surviving row:
`trip_duration_minutes = (dropoff - pickup).total_seconds() / 60`,
`pickup_hour`, `pickup_day_of_week`, and `trip_speed_mph` guarded by the
`trip_duration_minutes > 0` mask (rows outside the mask keep the assigned
default `0.0`).  Surviving rows always carry `some` timestamps, so the
`getD 0` defaults are never exercised after cleaning. -/
def deriveFields (r : TripRow) : TripRow :=
  let pu := r.tpep_pickup_datetime.getD 0
  let dpo := r.tpep_dropoff_datetime.getD 0
  let dur := (dpo - pu) / 60
  { r with
    trip_duration_minutes := dur
    pickup_hour := hourOf pu
    pickup_day_of_week := dayNameOf pu
    trip_speed_mph :=
      if 0 < dur then (r.trip_distance.getD 0) / (dur / 60) else 0 }

/-- The function `clean_data(df)`: drop rows missing a critical column, keep rows
passing the validity mask, assign the derived columns. -/
def clean_data (rows : List TripRow) : List TripRow :=
  ((rows.filter hasCriticalFields).filter validTrip).map deriveFields

/-- The `payment_labels` dictionary of the app, as an association list. -/
def payment_labels : List (ℤ × String) :=
  [(1, "Credit Card"), (2, "Cash"), (3, "No Charge"), (4, "Dispute"),
    (0, "Unknown")]

/-- The mapping `df["payment_type"].map(payment_labels)`: a present key maps to its
label; a missing value or a key absent from the dictionary maps to
`NaN` (here `none`). -/
def mapPaymentLabel (code : Option ℤ) : Option String :=
  code.bind fun c => (payment_labels.find? fun p => p.1 == c).map Prod.snd

/-- The sidebar filter state: `date_range` as a pair of calendar dates
(day indices, so `pd.to_datetime` of one is midnight of that day),
`hour_range` as an inclusive pair of hours, and the multiselect list of
payment-type labels. -/
structure FilterSpec where
  date_start : ℤ
  date_end : ℤ
  hour_start : ℤ
  hour_end : ℤ
  payment_types : List String
  deriving DecidableEq, Repr

/-- The conversion `pd.to_datetime(d)` for a calendar date `d`: midnight of that day. -/
def toDatetime (d : ℤ) : ℚ := (d : ℚ) * 86400

/-- The date-range conjuncts of the filter mask:
`(df["tpep_pickup_datetime"] >= pd.to_datetime(date_range[0])) &
(df["tpep_pickup_datetime"] <= pd.to_datetime(date_range[1]))`.  Note
both bounds compare the full timestamp, not its calendar date. -/
def dateRangeTest (spec : FilterSpec) (r : TripRow) : Bool :=
  (match r.tpep_pickup_datetime with
   | some pu => decide (toDatetime spec.date_start ≤ pu)
   | none => false) &&
  (match r.tpep_pickup_datetime with
   | some pu => decide (pu ≤ toDatetime spec.date_end)
   | none => false)

/-- The full row predicate of the `filtered_df` mask: date-range test,
inclusive hour bounds on `pickup_hour`, and
`df["payment_type_label"].isin(payment_types)` (a `NaN` label never
matches a list of string labels). -/
def rowPasses (spec : FilterSpec) (r : TripRow) : Bool :=
  dateRangeTest spec r &&
    decide (spec.hour_start ≤ r.pickup_hour) &&
    decide (r.pickup_hour ≤ spec.hour_end) &&
    (match mapPaymentLabel r.payment_type with
     | some lbl => spec.payment_types.contains lbl
     | none => false)

/-- The view `filtered_df`: the cleaned dataframe restricted to the rows passing
all filter conjuncts. -/
def filtered_df (rows : List TripRow) (spec : FilterSpec) : List TripRow :=
  rows.filter (rowPasses spec)

/-- The histogram pre-filter of tab 4:
`filtered_df[(trip_distance > 0) & (trip_distance < 20)]`.  Rows outside
`(0, 20)` are removed from the data handed to the histogram. -/
def hist_filtered (rows : List TripRow) : List TripRow :=
  rows.filter fun r =>
    optGt r.trip_distance 0 &&
      (match r.trip_distance with
       | some d => decide (d < 20)
       | none => false)

/-- The grouping key of the tab-6 heatmap:
`(pickup_day_of_week, pickup_hour)`. -/
def heatKey (r : TripRow) : String × ℤ :=
  (r.pickup_day_of_week, r.pickup_hour)

/-- The aggregation `filtered_df.groupby(["pickup_day_of_week", "pickup_hour"]).size()`:
one `(key, count)` entry per distinct key occurring in the data, the
count being the size of that key's group.  Keys are enumerated in
first-appearance order; pandas sorts them lexicographically, a
reordering that changes neither membership nor counts. -/
def heatmap_data (rows : List TripRow) : List ((String × ℤ) × ℕ) :=
  ((rows.map heatKey).dedup).map fun k =>
    (k, (rows.filter fun r => heatKey r == k).length)

/-! ### Concrete inputs used in scenario checks and witnesses -/

/-- A raw row that is valid in every respect, with `fare_amount = 500`
(the boundary value the spec says is retained). -/
def row500 : TripRow :=
  { tpep_pickup_datetime := some 0, tpep_dropoff_datetime := some 600,
    PULocationID := some 5, DOLocationID := some 7,
    trip_distance := some 2, fare_amount := some 500,
    payment_type := some 1 }

/-- The same row with `fare_amount = 501` (the spec says it is excluded). -/
def row501 : TripRow := { row500 with fare_amount := some 501 }

/-- A valid raw row whose pickup falls at 08:00 on calendar day 10. -/
def rowEndDay : TripRow :=
  { tpep_pickup_datetime := some (10 * 86400 + 28800),
    tpep_dropoff_datetime := some (10 * 86400 + 29400),
    PULocationID := some 5, DOLocationID := some 7,
    trip_distance := some 2, fare_amount := some 10,
    payment_type := some 1 }

/-- A filter over calendar days 5–10, all hours, every label offered by
the sidebar. -/
def specDays5to10 : FilterSpec :=
  { date_start := 5, date_end := 10, hour_start := 0, hour_end := 23,
    payment_types :=
      ["Credit Card", "Cash", "No Charge", "Dispute", "Unknown"] }

/-- A valid raw row carrying the out-of-enumeration payment code 5. -/
def rowCode5 : TripRow := { row500 with payment_type := some 5 }

/-- A valid raw row with a missing (`NaN`) payment code. -/
def rowNoPay : TripRow := { row500 with payment_type := none }

/-- A filter over calendar day 0 only, all hours, every label offered by
the sidebar. -/
def specDay0 : FilterSpec :=
  { date_start := 0, date_end := 0, hour_start := 0, hour_end := 23,
    payment_types :=
      ["Credit Card", "Cash", "No Charge", "Dispute", "Unknown"] }

/-- A valid raw row with `trip_distance = 25`, outside the histogram's
display domain. -/
def rowDist25 : TripRow := { row500 with trip_distance := some 25 }

/-- A narrow filter: days 3–4, hours 8–10, cash only. -/
def specNarrow : FilterSpec :=
  { date_start := 3, date_end := 4, hour_start := 8, hour_end := 10,
    payment_types := ["Cash"] }

/-- A wider filter containing `specNarrow` in every dimension. -/
def specWide : FilterSpec :=
  { date_start := 2, date_end := 5, hour_start := 7, hour_end := 12,
    payment_types := ["Cash", "Credit Card"] }

/-- A valid raw cash-paid row picked up at 09:00 on day 3, inside
`specNarrow`. -/
def rowCash : TripRow :=
  { tpep_pickup_datetime := some (3 * 86400 + 9 * 3600),
    tpep_dropoff_datetime := some (3 * 86400 + 9 * 3600 + 600),
    PULocationID := some 5, DOLocationID := some 7,
    trip_distance := some 2, fare_amount := some 10,
    payment_type := some 2 }

/-! ## Helper lemmas -/

theorem deriveFields_pickup (r : TripRow) :
    (deriveFields r).tpep_pickup_datetime = r.tpep_pickup_datetime := rfl

theorem deriveFields_dropoff (r : TripRow) :
    (deriveFields r).tpep_dropoff_datetime = r.tpep_dropoff_datetime := rfl

theorem deriveFields_distance (r : TripRow) :
    (deriveFields r).trip_distance = r.trip_distance := rfl

theorem deriveFields_fare (r : TripRow) :
    (deriveFields r).fare_amount = r.fare_amount := rfl

theorem deriveFields_payment (r : TripRow) :
    (deriveFields r).payment_type = r.payment_type := rfl

theorem hasCriticalFields_deriveFields (r : TripRow) :
    hasCriticalFields (deriveFields r) = hasCriticalFields r := rfl

theorem validTrip_deriveFields (r : TripRow) :
    validTrip (deriveFields r) = validTrip r := rfl

theorem deriveFields_idem (r : TripRow) :
    deriveFields (deriveFields r) = deriveFields r := rfl

/-- Membership in the cleaned dataframe: exactly the derived images of the
input rows that keep all critical fields and pass the validity mask. -/
theorem mem_clean_data {rows : List TripRow} {r : TripRow} :
    r ∈ clean_data rows ↔
      ∃ r0, r0 ∈ rows ∧ hasCriticalFields r0 = true ∧
        validTrip r0 = true ∧ r = deriveFields r0 := by
  simp only [clean_data, List.mem_map, List.mem_filter]
  constructor
  · rintro ⟨r0, ⟨⟨hmem, hc⟩, hv⟩, rfl⟩
    exact ⟨r0, hmem, hc, hv, rfl⟩
  · rintro ⟨r0, hmem, hc, hv, rfl⟩
    exact ⟨r0, ⟨⟨hmem, hc⟩, hv⟩, rfl⟩

/-- Unpacking the validity mask of `clean_data`. -/
theorem validTrip_elim {r : TripRow} (h : validTrip r = true) :
    ∃ pu dpo d f,
      r.tpep_pickup_datetime = some pu ∧
      r.tpep_dropoff_datetime = some dpo ∧
      r.trip_distance = some d ∧ r.fare_amount = some f ∧
      pu ≤ dpo ∧ 0 < f ∧ f ≤ 500 ∧ 0 < d := by
  unfold validTrip optGt optLe optGe2 at h
  simp only [Bool.and_eq_true] at h
  obtain ⟨⟨⟨h1, h2⟩, h3⟩, h4⟩ := h
  cases hd : r.trip_distance with
  | none => rw [hd] at h1; exact absurd h1 (by simp)
  | some d =>
    cases hf : r.fare_amount with
    | none => rw [hf] at h2; exact absurd h2 (by simp)
    | some f =>
      cases hpu : r.tpep_pickup_datetime with
      | none => rw [hpu] at h4; cases r.tpep_dropoff_datetime <;> simp at h4
      | some pu =>
        cases hdpo : r.tpep_dropoff_datetime with
        | none => rw [hdpo] at h4; simp at h4
        | some dpo =>
          rw [hd] at h1; rw [hf] at h2 h3; rw [hpu, hdpo] at h4
          simp only [decide_eq_true_eq] at h1 h2 h3 h4
          exact ⟨pu, dpo, d, f, rfl, rfl, rfl, rfl, h4, h2, h3, h1⟩

/-! ## Claims -/

/-- C1: Proved. Every row of `clean_data`'s output satisfies the invariants
`dropoff_time >= pickup_time`, `0 < fare_amount <= 500`,
`trip_distance > 0`; concretely, a row with `fare_amount = 500` (all
else valid) is retained and one with `fare_amount = 501` is excluded. -/
theorem C1_clean_invariants :
    (∀ (rows : List TripRow) (r : TripRow), r ∈ clean_data rows →
      ∃ pu dpo d f,
        r.tpep_pickup_datetime = some pu ∧
        r.tpep_dropoff_datetime = some dpo ∧
        r.trip_distance = some d ∧ r.fare_amount = some f ∧
        pu ≤ dpo ∧ 0 < f ∧ f ≤ 500 ∧ 0 < d) ∧
    clean_data [row500, row501] = [deriveFields row500] := by
  constructor
  · intro rows r hr
    obtain ⟨r0, _, _, hv, rfl⟩ := mem_clean_data.mp hr
    obtain ⟨pu, dpo, d, f, h1, h2, h3, h4, h5⟩ := validTrip_elim hv
    exact ⟨pu, dpo, d, f, by rw [deriveFields_pickup]; exact h1,
      by rw [deriveFields_dropoff]; exact h2,
      by rw [deriveFields_distance]; exact h3,
      by rw [deriveFields_fare]; exact h4, h5⟩
  · norm_num [clean_data, hasCriticalFields, validTrip, optGt, optLe,
      optGe2, row500, row501, List.filter]

/-- Witness for C1: the invariants instantiated on the concrete retained
row. -/
theorem C1_witness :
    ∃ pu dpo d f,
      (deriveFields row500).tpep_pickup_datetime = some pu ∧
      (deriveFields row500).tpep_dropoff_datetime = some dpo ∧
      (deriveFields row500).trip_distance = some d ∧
      (deriveFields row500).fare_amount = some f ∧
      pu ≤ dpo ∧ 0 < f ∧ f ≤ 500 ∧ 0 < d :=
  C1_clean_invariants.1 [row500, row501] (deriveFields row500)
    (by rw [C1_clean_invariants.2]; exact List.mem_singleton.mpr rfl)

/-- C6: Proved. On every surviving row, `clean_data` sets
`speed_mph = trip_distance / (duration_minutes / 60)` whenever
`duration_minutes > 0` and exactly `0` when `duration_minutes = 0`; the
division is guarded by the mask, so no division by zero is performed
(durations of surviving rows are moreover never negative). -/
theorem C6_speed_guarded (rows : List TripRow) (r : TripRow)
    (hr : r ∈ clean_data rows) :
    0 ≤ r.trip_duration_minutes ∧
    (0 < r.trip_duration_minutes →
      ∃ d, r.trip_distance = some d ∧
        r.trip_speed_mph = d / (r.trip_duration_minutes / 60)) ∧
    (r.trip_duration_minutes = 0 → r.trip_speed_mph = 0) := by
  obtain ⟨r0, _, _, hv, rfl⟩ := mem_clean_data.mp hr
  obtain ⟨pu, dpo, d, f, hpu, hdpo, hd, _, hle, _, _, _⟩ := validTrip_elim hv
  have hdur : (deriveFields r0).trip_duration_minutes = (dpo - pu) / 60 := by
    simp [deriveFields, hpu, hdpo]
  have hspeed : (deriveFields r0).trip_speed_mph =
      if 0 < (dpo - pu) / 60 then d / (((dpo - pu) / 60) / 60) else 0 := by
    simp [deriveFields, hpu, hdpo, hd]
  refine ⟨?_, ?_, ?_⟩
  · rw [hdur]
    exact div_nonneg (sub_nonneg.mpr hle) (by norm_num)
  · intro hpos
    rw [hdur] at hpos
    refine ⟨d, by rw [deriveFields_distance]; exact hd, ?_⟩
    rw [hspeed, hdur, if_pos hpos]
  · intro hzero
    rw [hdur] at hzero
    rw [hspeed, hzero, if_neg (lt_irrefl 0)]

/-- Witness for C6: the guard instantiated on the concrete cleaned row. -/
theorem C6_witness :
    0 ≤ (deriveFields row500).trip_duration_minutes ∧
    (0 < (deriveFields row500).trip_duration_minutes →
      ∃ d, (deriveFields row500).trip_distance = some d ∧
        (deriveFields row500).trip_speed_mph =
          d / ((deriveFields row500).trip_duration_minutes / 60)) ∧
    ((deriveFields row500).trip_duration_minutes = 0 →
      (deriveFields row500).trip_speed_mph = 0) :=
  C6_speed_guarded [row500] (deriveFields row500)
    (by norm_num [clean_data, hasCriticalFields, validTrip, optGt, optLe,
      optGe2, row500, List.filter])

/-- C9: Proved. `clean_data` is idempotent: re-cleaning a cleaned dataframe
drops no row and recomputes identical derived fields. -/
theorem C9_clean_idempotent (rows : List TripRow) :
    clean_data (clean_data rows) = clean_data rows := by
  unfold clean_data
  have hc : (hasCriticalFields ∘ deriveFields) = hasCriticalFields :=
    funext hasCriticalFields_deriveFields
  have hv : (validTrip ∘ deriveFields) = validTrip :=
    funext validTrip_deriveFields
  rw [List.filter_map, hc]
  have h1 : ((rows.filter hasCriticalFields).filter validTrip).filter
      hasCriticalFields = (rows.filter hasCriticalFields).filter validTrip :=
    List.filter_eq_self.mpr fun a ha =>
      List.of_mem_filter (List.mem_of_mem_filter ha)
  rw [h1, List.filter_map, hv]
  have h2 : ((rows.filter hasCriticalFields).filter validTrip).filter
      validTrip = (rows.filter hasCriticalFields).filter validTrip :=
    List.filter_eq_self.mpr fun a ha => List.of_mem_filter ha
  rw [h2, List.map_map]
  exact List.map_eq_map_iff.mpr fun a _ => deriveFields_idem a

/-- C10: Proved. `clean_data` never inspects `payment_type`: a row with the
five critical fields present and a valid distance/fare/time pair is
retained even with a missing payment code, and such a row then fails the
payment-label conjunct of the filter for every `FilterSpec`, since a
missing code maps to no label. -/
theorem C10_missing_payment_code (rows : List TripRow) (r : TripRow)
    (h1 : r ∈ rows) (h2 : hasCriticalFields r = true)
    (h3 : validTrip r = true) (h4 : r.payment_type = none) :
    deriveFields r ∈ clean_data rows ∧
    ∀ spec : FilterSpec, rowPasses spec (deriveFields r) = false := by
  refine ⟨mem_clean_data.mpr ⟨r, h1, h2, h3, rfl⟩, fun spec => ?_⟩
  unfold rowPasses
  rw [deriveFields_payment, h4]
  simp [mapPaymentLabel]

/-- Witness for C10: the concrete payment-less row is retained by
cleaning and rejected by every filter. -/
theorem C10_witness :
    deriveFields rowNoPay ∈ clean_data [rowNoPay] ∧
    ∀ spec : FilterSpec, rowPasses spec (deriveFields rowNoPay) = false :=
  C10_missing_payment_code [rowNoPay] rowNoPay (List.mem_singleton.mpr rfl)
    (by norm_num [hasCriticalFields, rowNoPay, row500])
    (by norm_num [validTrip, optGt, optLe, optGe2, rowNoPay, row500])
    rfl

/-- C2, code-bug exhibit: A cleaned row picked up at 08:00 on the end day of
the filter's date range: its calendar date lies inside the inclusive
range (as the claim states), yet the code's date-range test — which
compares the full timestamp against `pd.to_datetime(end)` = midnight of
the end date — rejects it, and with it the whole filter. -/
theorem C2_end_date_divergence :
    (deriveFields rowEndDay).tpep_pickup_datetime =
      some (10 * 86400 + 28800) ∧
    deriveFields rowEndDay ∈ clean_data [rowEndDay] ∧
    specDays5to10.date_start ≤ dateOf (10 * 86400 + 28800) ∧
    dateOf (10 * 86400 + 28800) ≤ specDays5to10.date_end ∧
    specDays5to10.hour_start ≤ (deriveFields rowEndDay).pickup_hour ∧
    (deriveFields rowEndDay).pickup_hour ≤ specDays5to10.hour_end ∧
    mapPaymentLabel (deriveFields rowEndDay).payment_type =
      some ("Credit Card") ∧
    "Credit Card" ∈ specDays5to10.payment_types ∧
    dateRangeTest specDays5to10 (deriveFields rowEndDay) = false ∧
    rowPasses specDays5to10 (deriveFields rowEndDay) = false := by
  have hdrt : dateRangeTest specDays5to10 (deriveFields rowEndDay) = false := by
    norm_num [dateRangeTest, toDatetime, deriveFields, rowEndDay,
      specDays5to10]
  refine ⟨rfl, ?_, ?_, ?_, ?_, ?_, rfl, ?_, hdrt, ?_⟩
  · norm_num [clean_data, hasCriticalFields, validTrip, optGt, optLe,
      optGe2, rowEndDay, List.filter]
  · norm_num [dateOf, specDays5to10]
  · norm_num [dateOf, specDays5to10]
  · norm_num [deriveFields, rowEndDay, hourOf, secondOfDay, dateOf,
      specDays5to10]
  · norm_num [deriveFields, rowEndDay, hourOf, secondOfDay, dateOf,
      specDays5to10]
  · norm_num [specDays5to10]
  · unfold rowPasses
    rw [hdrt]
    simp

/-- C3, counterexample: The out-of-enumeration payment code 5 does
not map to the label "Unknown" — `Series.map` of a dict sends absent
keys to `NaN` — and a cleaned row carrying code 5 is rejected by the
filter even though "Unknown" is among the allowed labels. -/
theorem C3_unknown_code_counterexample :
    mapPaymentLabel (some 5) ≠ some ("Unknown") ∧
    "Unknown" ∈ specDay0.payment_types ∧
    deriveFields rowCode5 ∈ clean_data [rowCode5] ∧
    rowPasses specDay0 (deriveFields rowCode5) = false := by
  refine ⟨?_, ?_, ?_, ?_⟩
  · intro h
    simp [mapPaymentLabel, payment_labels, List.find?] at h
  · norm_num [specDay0]
  · norm_num [clean_data, hasCriticalFields, validTrip, optGt, optLe,
      optGe2, rowCode5, row500, List.filter]
  · unfold rowPasses
    have : mapPaymentLabel (deriveFields rowCode5).payment_type = none := by
      simp [mapPaymentLabel, payment_labels, deriveFields, rowCode5, row500,
        List.find?]
    rw [this]
    simp

/-- C3, amended: A payment code outside the enumeration
`{0, 1, 2, 3, 4}` maps to no label at all (`NaN`), so a row carrying it
is excluded by the payment filter for every allowed-label set; only the
in-enumeration code 0 maps to the label "Unknown". -/
theorem C3_unmapped_code_excluded :
    (∀ c : ℤ, c ≠ 0 → c ≠ 1 → c ≠ 2 → c ≠ 3 → c ≠ 4 →
      mapPaymentLabel (some c) = none ∧
      ∀ (spec : FilterSpec) (r : TripRow), r.payment_type = some c →
        rowPasses spec r = false) ∧
    mapPaymentLabel (some 0) = some ("Unknown") := by
  constructor
  · intro c hc0 hc1 hc2 hc3 hc4
    have hnone : mapPaymentLabel (some c) = none := by
      unfold mapPaymentLabel
      rw [Option.some_bind]
      rw [show (List.find? (fun p => p.1 == c) payment_labels).map Prod.snd
            = none ↔
          List.find? (fun p => p.1 == c) payment_labels = none from
        Option.map_eq_none']
      refine List.find?_eq_none.mpr fun p hp => ?_
      simp only [payment_labels, List.mem_cons, List.not_mem_nil,
        or_false] at hp
      rcases hp with rfl | rfl | rfl | rfl | rfl <;>
        simp only [beq_eq_false_iff_ne, ne_eq, Bool.not_eq_true] <;>
        simp [Ne.symm hc1, Ne.symm hc2, Ne.symm hc3, Ne.symm hc4,
          Ne.symm hc0]
    refine ⟨hnone, fun spec r hpt => ?_⟩
    unfold rowPasses
    rw [hpt, hnone]
    simp
  · rfl

/-- Witness for amended C3: code 5 maps to no label and the concrete
code-5 row is excluded under a filter allowing every label. -/
theorem C3_witness :
    mapPaymentLabel (some 5) = none ∧
    rowPasses specDay0 (deriveFields rowCode5) = false := by
  have h := C3_unmapped_code_excluded.1 5 (by decide) (by decide)
    (by decide) (by decide) (by decide)
  exact ⟨h.1, h.2 specDay0 (deriveFields rowCode5) rfl⟩

/-- C8: Proved. `filtered_df` only ever selects rows of its input, and the
selection is monotone in the spec: a spec whose date range and hour
range contain another's, with a superset of allowed labels, passes every
row the narrower spec passes. -/
theorem C8_filter_subset_monotone :
    (∀ (rows : List TripRow) (spec : FilterSpec) (r : TripRow),
      r ∈ filtered_df rows spec → r ∈ rows) ∧
    (∀ (rows : List TripRow) (s1 s2 : FilterSpec) (r : TripRow),
      s1.date_start ≤ s2.date_start → s2.date_end ≤ s1.date_end →
      s1.hour_start ≤ s2.hour_start → s2.hour_end ≤ s1.hour_end →
      (∀ lbl, lbl ∈ s2.payment_types → lbl ∈ s1.payment_types) →
      r ∈ filtered_df rows s2 → r ∈ filtered_df rows s1) := by
  constructor
  · intro rows spec r hr
    exact List.mem_of_mem_filter hr
  · intro rows s1 s2 r hds hde hhs hhe hlbl hr
    rw [filtered_df, List.mem_filter] at hr ⊢
    refine ⟨hr.1, ?_⟩
    have hp := hr.2
    unfold rowPasses dateRangeTest at hp ⊢
    simp only [Bool.and_eq_true] at hp
    obtain ⟨⟨⟨⟨hm1, hm2⟩, hh1⟩, hh2⟩, hl⟩ := hp
    cases hpu : r.tpep_pickup_datetime with
    | none => rw [hpu] at hm1; exact absurd hm1 (by simp)
    | some pu =>
      rw [hpu] at hm1 hm2
      simp only [decide_eq_true_eq] at hm1 hm2 hh1 hh2
      have hcast : ∀ a b : ℤ, a ≤ b → toDatetime a ≤ toDatetime b := by
        intro a b hab
        unfold toDatetime
        have : (a : ℚ) ≤ (b : ℚ) := Int.cast_le.mpr hab
        nlinarith
      simp only [Bool.and_eq_true, hpu, decide_eq_true_eq]
      refine ⟨⟨⟨⟨le_trans (hcast _ _ hds) hm1,
        le_trans hm2 (hcast _ _ hde)⟩, ?_⟩, ?_⟩, ?_⟩
      · exact le_trans hhs hh1
      · exact le_trans hh2 hhe
      · cases hpt : mapPaymentLabel r.payment_type with
        | none => rw [hpt] at hl; exact absurd hl (by simp)
        | some lbl =>
          rw [hpt] at hl
          exact List.elem_iff.mpr (hlbl lbl (List.elem_iff.mp hl))

/-- Witness for C8: a concrete cash row passing the narrow spec also
passes the containing wide spec. -/
theorem C8_witness :
    deriveFields rowCash ∈ filtered_df [deriveFields rowCash] specWide :=
  C8_filter_subset_monotone.2 [deriveFields rowCash] specWide specNarrow
    (deriveFields rowCash) (by decide) (by decide) (by decide) (by decide)
    (by decide)
    (by
      rw [filtered_df, List.mem_filter]
      refine ⟨List.mem_singleton.mpr rfl, ?_⟩
      norm_num [rowPasses, dateRangeTest, toDatetime, mapPaymentLabel,
        payment_labels, deriveFields, hourOf, secondOfDay, dateOf,
        rowCash, specNarrow, List.find?]
      decide)

/-- C4, counterexample: A cleaned, filterable row with
`trip_distance = 25` — outside the display domain — does not contribute
to the histogram's counts at all: `hist_filtered` removes it before
binning, so the claim that out-of-domain rows are still counted fails. -/
theorem C4_out_of_domain_counterexample :
    (deriveFields rowDist25).trip_distance = some 25 ∧
    deriveFields rowDist25 ∈ clean_data [rowDist25] ∧
    hist_filtered [deriveFields rowDist25] = [] := by
  refine ⟨rfl, ?_, ?_⟩
  · norm_num [clean_data, hasCriticalFields, validTrip, optGt, optLe,
      optGe2, rowDist25, row500, List.filter]
  · norm_num [hist_filtered, optGt, deriveFields, rowDist25, row500,
      List.filter]

/-- C4, amended: The histogram's input consists of exactly the
filtered rows with `0 < trip_distance < 20`: rows outside that open
domain are excluded from the bin counts before binning, not merely
hidden from display. -/
theorem C4_hist_domain (rows : List TripRow) (r : TripRow) :
    r ∈ hist_filtered rows ↔
      r ∈ rows ∧ ∃ d, r.trip_distance = some d ∧ 0 < d ∧ d < 20 := by
  rw [hist_filtered, List.mem_filter]
  constructor
  · rintro ⟨hmem, hp⟩
    refine ⟨hmem, ?_⟩
    simp only [Bool.and_eq_true] at hp
    obtain ⟨h1, h2⟩ := hp
    cases hd : r.trip_distance with
    | none => rw [hd] at h2; exact absurd h2 (by simp)
    | some d =>
      rw [hd] at h1 h2
      simp only [optGt, decide_eq_true_eq] at h1 h2
      exact ⟨d, rfl, h1, h2⟩
  · rintro ⟨hmem, d, hd, h1, h2⟩
    refine ⟨hmem, ?_⟩
    simp [optGt, hd, h1, h2]

/-- Witness for amended C4: the concrete in-domain cleaned row is in the
histogram's input. -/
theorem C4_witness :
    deriveFields row500 ∈ hist_filtered [deriveFields row500] :=
  (C4_hist_domain [deriveFields row500] (deriveFields row500)).mpr
    ⟨List.mem_singleton.mpr rfl, 2, rfl, by norm_num, by norm_num⟩

/-- C7: Proved. The heatmap cross-tabulation's counts sum to the number of
filtered rows, and no zero-count cell appears in its output. -/
theorem C7_heatmap_counts (rows : List TripRow) :
    ((heatmap_data rows).map (fun e => e.2)).sum = rows.length ∧
    ∀ e ∈ heatmap_data rows, e.2 ≠ 0 := by
  constructor
  · unfold heatmap_data
    rw [List.map_map]
    have hmap : ((rows.map heatKey).dedup.map
          ((fun e : (String × ℤ) × ℕ => e.2) ∘ fun k =>
            (k, (rows.filter fun r => heatKey r == k).length)))
        = ((rows.map heatKey).dedup.map fun k =>
            (rows.map heatKey).countP fun x => x == k) := by
      refine List.map_eq_map_iff.mpr fun k _ => ?_
      show (rows.filter fun r => heatKey r == k).length = _
      rw [← List.countP_eq_length_filter, List.countP_map]
      rfl
    rw [hmap]
    have h := List.sum_map_count_dedup_eq_length (rows.map heatKey)
    have heq : ((rows.map heatKey).dedup.map fun k =>
          @List.count (String × ℤ) instBEqOfDecidableEq k
            (rows.map heatKey))
        = ((rows.map heatKey).dedup.map fun k =>
            (rows.map heatKey).countP fun x => x == k) := by
      refine List.map_eq_map_iff.mpr fun k _ => ?_
      show (rows.map heatKey).countP (fun x => decide (x = k)) = _
      congr 1
      funext x
      rw [Bool.beq_eq_decide_eq]
    rw [heq] at h
    rw [h, List.length_map]
  · intro e he
    unfold heatmap_data at he
    rw [List.mem_map] at he
    obtain ⟨k, hk, rfl⟩ := he
    obtain ⟨r, hr, hkr⟩ := List.mem_map.mp (List.mem_dedup.mp hk)
    intro h0
    rw [List.length_eq_zero] at h0
    have : r ∈ rows.filter fun r => heatKey r == k :=
      List.mem_filter.mpr ⟨hr, by simp [hkr]⟩
    rw [h0] at this
    exact absurd this (List.not_mem_nil r)

/-- Witness for C7: the heatmap of a concrete one-row dataframe has one
cell, whose count 1 is nonzero. -/
theorem C7_witness :
    ((("Thursday", (0 : ℤ)), 1) : (String × ℤ) × ℕ).2 ≠ 0 :=
  (C7_heatmap_counts [deriveFields row500]).2 (("Thursday", 0), 1)
    (by
      have : heatmap_data [deriveFields row500] = [(("Thursday", 0), 1)] := by
        have hk : heatKey (deriveFields row500) = ("Thursday", 0) := by
          norm_num [heatKey, deriveFields, row500, dayNameOf, dayNames,
            hourOf, secondOfDay, dateOf]
        simp [heatmap_data, hk, List.dedup_cons_of_not_mem, List.filter]
      rw [this]
      exact List.mem_singleton.mpr rfl)

end Dashboard
